import Mathlib

/-!
Shallow embedding of the resilient WebSocket client (the converged revision
of the WebSocketClient class: constructor, connect, event handlers,
heartbeat timers, exponential-backoff reconnect, message buffering,
send, flushMessageQueue, destroy).

Transport and timer effects are made explicit: every handler is a pure
function from the manager state to a new state plus a trace of emitted
actions (callback invocations, transport writes and closes, timer
schedulings). Randomness (Math.random) is passed in as a rational
parameter in [0, 1).
-/

namespace SpWsocket

/-- Outbound payloads: a string or a binary blob. JavaScript truthiness of
a payload is captured by `truthy` (only the empty string is falsy). -/
inductive SocketData where
  | str (s : String)
  | bin (bytes : List Nat)
deriving DecidableEq

def SocketData.truthy : SocketData → Bool
  | .str s => !(s == "")
  | .bin _ => true

/-- The readyState of the underlying transport handle. -/
inductive ReadyState where
  | connecting
  | opened
  | closing
  | closed
deriving DecidableEq

/-- Numeric readyState codes (CONNECTING = 0, OPEN = 1, CLOSING = 2, CLOSED = 3). -/
def ReadyState.code : ReadyState → Int
  | .connecting => 0
  | .opened => 1
  | .closing => 2
  | .closed => 3

/-- Configuration after the constructor merged caller overrides with defaults. -/
structure Options where
  reconnectAttempts : Nat
  reconnectInterval : ℚ
  heartbeatInterval : ℚ
  heartbeatTimeout : ℚ
  randomTime : ℚ
  enableMessageBuffer : Bool
deriving DecidableEq

/-- Caller-supplied configuration: every field optional, defaults applied at
construction. -/
structure OptionsInput where
  reconnectAttempts : Option Nat
  reconnectInterval : Option ℚ
  heartbeatInterval : Option ℚ
  heartbeatTimeout : Option ℚ
  randomTime : Option ℚ
  enableMessageBuffer : Option Bool

/-- The defaults-merge performed by the constructor:
reconnectAttempts 3, reconnectInterval 5000, heartbeatInterval 10000,
heartbeatTimeout 15000, randomTime 2, enableMessageBuffer false. -/
def mergeOptions (u : OptionsInput) : Options where
  reconnectAttempts := u.reconnectAttempts.getD 3
  reconnectInterval := u.reconnectInterval.getD 5000
  heartbeatInterval := u.heartbeatInterval.getD 10000
  heartbeatTimeout := u.heartbeatTimeout.getD 15000
  randomTime := u.randomTime.getD 2
  enableMessageBuffer := u.enableMessageBuffer.getD false

/-- The constructor adjustment: if heartbeatInterval equals heartbeatTimeout,
heartbeatTimeout is widened by 3000 ms. -/
def constructorOptions (u : OptionsInput) : Options :=
  let o := mergeOptions u
  if o.heartbeatInterval = o.heartbeatTimeout then
    { o with heartbeatTimeout := o.heartbeatTimeout + 3000 }
  else o

/-- Observable actions emitted by the manager: callback invocations (cb…),
transport operations and timer schedulings. -/
inductive Act where
  | cbConnected
  | cbMessage (d : SocketData)
  | cbClosed
  | cbError
  | cbSendError (code : Int)
  | cbHeartbeatTimeout
  | cbReconnecting (remaining : Nat)
  | cbReconnectFailed
  | wsSend (d : SocketData)
  | wsClose
  | detachHandlers
  | newWebSocket
  | schedReconnect (delay : ℚ)
  | schedCooldown (delay : ℚ)
  | schedHeartbeatSend (period : ℚ)
  | schedHeartbeatCheck (period : ℚ)
deriving DecidableEq

def Act.isCbClosed : Act → Bool
  | .cbClosed => true
  | _ => false

def Act.isCbHeartbeatTimeout : Act → Bool
  | .cbHeartbeatTimeout => true
  | _ => false

def Act.isSchedReconnect : Act → Bool
  | .schedReconnect _ => true
  | _ => false

def Act.isCbReconnectFailed : Act → Bool
  | .cbReconnectFailed => true
  | _ => false

def Act.isNewWebSocket : Act → Bool
  | .newWebSocket => true
  | _ => false

/-- Whether an action is any caller-callback invocation. -/
def Act.isCb : Act → Bool
  | .cbConnected => true
  | .cbMessage _ => true
  | .cbClosed => true
  | .cbError => true
  | .cbSendError _ => true
  | .cbHeartbeatTimeout => true
  | .cbReconnecting _ => true
  | .cbReconnectFailed => true
  | _ => false

/-- The transport writes contained in a trace, in order. -/
def wsSendsOf (t : List Act) : List SocketData :=
  t.filterMap fun a =>
    match a with
    | .wsSend d => some d
    | _ => none

/-- The named timer handles (true = a live handle is stored). -/
structure Timers where
  heartbeatSend : Bool
  heartbeatCheck : Bool
  reconnect : Bool
deriving DecidableEq

def Timers.clearAll : Timers := ⟨false, false, false⟩

/-- Mutable per-manager state. `callbacksActive` is false once destroy has
replaced the callback set with the empty record; `hasGetHeartbeat` mirrors
whether callbacks.getHeartbeat is present. -/
structure MState where
  ws : Option ReadyState
  reconnectCount : Nat
  isConnecting : Bool
  messageQueue : List SocketData
  timers : Timers
  callbacksActive : Bool
  hasGetHeartbeat : Bool
deriving DecidableEq

/-- Optional-chained callback invocation: emits nothing once the callback
set has been released. -/
def emitCb (s : MState) (a : Act) : List Act :=
  if s.callbacksActive then [a] else []

/-- isConnected(): ws exists and its readyState is OPEN. -/
def isConnectedB (s : MState) : Bool := s.ws == some ReadyState.opened

/-- Last known connection status code: the readyState, or -1 with no connection. -/
def wsStatusCode (s : MState) : Int :=
  match s.ws with
  | some rs => rs.code
  | none => -1

/-- Deterministic component of the nth reconnect delay:
min(base × 1.5^(count-1), 30000). -/
def backoffDelay (o : Options) (count : Nat) : ℚ :=
  min (o.reconnectInterval * (3 / 2 : ℚ) ^ (count - 1)) 30000

/-- Jitter component: Math.random() × randomTime × 1000. -/
def randomDelay (o : Options) (rand : ℚ) : ℚ := rand * o.randomTime * 1000

/-- handleConnectionError: below the attempt cap, increment the counter,
invoke onReconnecting with remaining attempts and arm the backoff-plus-jitter
reconnect timer; at the cap, invoke onReconnectFailed, drop the connection
reference and schedule the 30 s counter-reset cooldown. -/
def handleConnectionError (o : Options) (rand : ℚ) (s : MState) : MState × List Act :=
  if s.reconnectCount < o.reconnectAttempts then
    let n := s.reconnectCount + 1
    ({ s with reconnectCount := n, timers := { s.timers with reconnect := true } },
      emitCb s (.cbReconnecting (o.reconnectAttempts - n)) ++
        [.schedReconnect (backoffDelay o n + randomDelay o rand)])
  else
    ({ s with ws := none },
      emitCb s .cbReconnectFailed ++ [.schedCooldown 30000])

/-- Body of the 30 s cooldown timer armed on reconnect exhaustion. -/
def cooldownFire (s : MState) : MState := { s with reconnectCount := 0 }

/-- startHeartbeat: with a heartbeat producer present, (re)arm the send
interval with period heartbeatInterval + random() × randomTime. -/
def startHeartbeat (o : Options) (rand : ℚ) (s : MState) : MState × List Act :=
  if s.hasGetHeartbeat then
    ({ s with timers := { s.timers with heartbeatSend := true } },
      [.schedHeartbeatSend (o.heartbeatInterval + rand * o.randomTime)])
  else (s, [])

/-- resetHeartbeat: with a heartbeat producer present, (re)arm the one-shot
check timer with period heartbeatTimeout + random() × randomTime. -/
def resetHeartbeat (o : Options) (rand : ℚ) (s : MState) : MState × List Act :=
  if s.hasGetHeartbeat then
    ({ s with timers := { s.timers with heartbeatCheck := true } },
      [.schedHeartbeatCheck (o.heartbeatTimeout + rand * o.randomTime)])
  else (s, [])

/-- The flush loop: while the queue is nonempty and the connection is open
(re-read at iteration i through `conn`), shift the head and write it when it
is truthy. Returns the final queue and the emitted actions. -/
def flushLoop (conn : Nat → Bool) : Nat → List SocketData → List SocketData × List Act
  | _, [] => ([], [])
  | i, m :: rest =>
    if conn i then
      let t := flushLoop conn (i + 1) rest
      (t.1, (if m.truthy then [Act.wsSend m] else []) ++ t.2)
    else (m :: rest, [])

/-- flushMessageQueue on the manager state: connectivity is constant during
the synchronous loop. -/
def flushMessageQueue (s : MState) : MState × List Act :=
  let r := flushLoop (fun _ => isConnectedB s) 0 s.messageQueue
  ({ s with messageQueue := r.1 }, r.2)

/-- cleanupOldConnection(ws): detach all four handlers, then close the socket
unless it is already CLOSED or CLOSING. -/
def cleanupOldConnActs (rs : ReadyState) : List Act :=
  Act.detachHandlers ::
    (if rs != ReadyState.closed && rs != ReadyState.closing then [Act.wsClose] else [])

/-- cleanupConnection: clear every timer, then detach and close the current
connection if one exists (the field itself is not nulled here). -/
def cleanupConnection (s : MState) : MState × List Act :=
  let s1 := { s with timers := Timers.clearAll }
  match s1.ws with
  | some rs => (s1, cleanupOldConnActs rs)
  | none => (s1, [])

/-- handleTimeoutAndReconnect (the heartbeat-check timer body): invoke the
timeout callback, tear the connection down, invoke onClosed, then run the
reconnect decision. -/
def handleTimeoutAndReconnect (o : Options) (rand : ℚ) (s : MState) : MState × List Act :=
  let a1 := emitCb s .cbHeartbeatTimeout
  let r := cleanupConnection s
  let a2 := emitCb r.1 .cbClosed
  let r2 := handleConnectionError o rand r.1
  (r2.1, a1 ++ r.2 ++ a2 ++ r2.2)

/-- The onopen handler body: clear the connecting flag, reset the attempt
counter, flush the buffer when enabled, start both heartbeat timers, invoke
onConnected. -/
def onopenHandler (o : Options) (r1 r2 : ℚ) (s : MState) : MState × List Act :=
  let s1 := { s with isConnecting := false, reconnectCount := 0 }
  let f := if o.enableMessageBuffer then flushMessageQueue s1 else (s1, [])
  let h1 := startHeartbeat o r1 f.1
  let h2 := resetHeartbeat o r2 h1.1
  (h2.1, f.2 ++ h1.2 ++ h2.2 ++ emitCb h2.1 .cbConnected)

/-- The open event: the transport marks the socket OPEN, then the handler runs. -/
def fireOpen (o : Options) (r1 r2 : ℚ) (s : MState) : MState × List Act :=
  onopenHandler o r1 r2 { s with ws := s.ws.map fun _ => ReadyState.opened }

/-- The onclose handler body: clear the connecting flag and every timer,
invoke onClosed only when the attempt counter is zero, and run the reconnect
decision when no reconnect timer handle is stored (always, since the timers
were just cleared). -/
def oncloseHandler (o : Options) (rand : ℚ) (s : MState) : MState × List Act :=
  let s1 := { s with isConnecting := false, timers := Timers.clearAll }
  let a1 := if s1.reconnectCount = 0 then emitCb s1 .cbClosed else []
  if s1.timers.reconnect = false then
    let r := handleConnectionError o rand s1
    (r.1, a1 ++ r.2)
  else (s1, a1)

/-- The close event: the transport marks the socket CLOSED, then the handler runs. -/
def fireClose (o : Options) (rand : ℚ) (s : MState) : MState × List Act :=
  oncloseHandler o rand { s with ws := s.ws.map fun _ => ReadyState.closed }

/-- Public send. `writeFails` models the underlying transport write throwing;
the throw is not caught in this revision, so it surfaces as `Except.error`.
While not open: buffer when enabled, invoke onSendError with the status code,
return false. -/
def send (o : Options) (s : MState) (d : SocketData) (writeFails : Bool) :
    Except Unit (MState × Bool × List Act) :=
  if isConnectedB s = false then
    let s1 :=
      if o.enableMessageBuffer then { s with messageQueue := s.messageQueue ++ [d] } else s
    .ok (s1, false, emitCb s1 (.cbSendError (wsStatusCode s1)))
  else if writeFails then .error ()
  else .ok (s, true, [.wsSend d])

/-- destroy(): clear the connecting flag, tear down the connection and all
timers, invoke onClosed, null the connection and release the callback set. -/
def destroy (s : MState) : MState × List Act :=
  let s1 := { s with isConnecting := false }
  let r := cleanupConnection s1
  let a2 := emitCb r.1 .cbClosed
  ({ r.1 with ws := none, callbacksActive := false, hasGetHeartbeat := false },
    r.2 ++ a2)

/-- connect(): dropped silently while the connecting flag is set; otherwise
set the flag, clear every timer, detach and close any previous connection and
open a new one. `ctorThrows` models the WebSocket constructor throwing, which
falls into the reconnect path. -/
def connect (o : Options) (s : MState) (ctorThrows : Bool) (rand : ℚ) : MState × List Act :=
  if s.isConnecting then (s, [])
  else
    let s1 := { s with isConnecting := true, timers := Timers.clearAll }
    let cleanup : MState × List Act :=
      match s1.ws with
      | some rs => ({ s1 with ws := none }, cleanupOldConnActs rs)
      | none => (s1, [])
    if ctorThrows then
      let s2 := { cleanup.1 with isConnecting := false }
      let r := handleConnectionError o rand s2
      (r.1, cleanup.2 ++ r.2)
    else
      ({ cleanup.1 with ws := some ReadyState.connecting }, cleanup.2 ++ [Act.newWebSocket])

/-- Modelled from the spec: the observable action order the specification
states for the open transition — heartbeat send/check timers (re)started,
then buffered messages flushed in FIFO order when buffering is enabled, then
onConnected invoked. Used only to compare the stated order with the code. -/
def onopenSpecOrderActs (o : Options) (r1 r2 : ℚ) (s : MState) : List Act :=
  (if s.hasGetHeartbeat then
      [Act.schedHeartbeatSend (o.heartbeatInterval + r1 * o.randomTime),
        Act.schedHeartbeatCheck (o.heartbeatTimeout + r2 * o.randomTime)]
    else []) ++
  (if o.enableMessageBuffer then s.messageQueue.map Act.wsSend else []) ++
  [Act.cbConnected]

end SpWsocket

namespace SpWsocket

/-! Helper lemmas about the flush loop and traces. -/

theorem flushLoop_conn_true (i : Nat) (q : List SocketData) :
    flushLoop (fun _ => true) i q = ([], (q.filter SocketData.truthy).map Act.wsSend) := by
  induction q generalizing i with
  | nil => rfl
  | cons m rest ih =>
    simp only [flushLoop, if_pos, ih (i + 1), List.filter_cons]
    cases hm : m.truthy <;> simp [hm]

theorem wsSendsOf_append (t1 t2 : List Act) :
    wsSendsOf (t1 ++ t2) = wsSendsOf t1 ++ wsSendsOf t2 := by
  simp [wsSendsOf]

theorem wsSendsOf_map_wsSend (l : List SocketData) :
    wsSendsOf (l.map Act.wsSend) = l := by
  induction l with
  | nil => rfl
  | cons a l ih => simp [wsSendsOf, List.filterMap_cons] at ih ⊢; exact ih

/-! Shared concrete instances used by witnesses and counterexamples. -/

/-- The default configuration (all defaults, buffering off). -/
def optDefault : Options := ⟨3, 5000, 10000, 15000, 2, false⟩

/-- The default configuration with message buffering enabled. -/
def optBuffer : Options := ⟨3, 5000, 10000, 15000, 2, true⟩

/-- A fresh manager state whose socket has just closed, counter 0. -/
def st0 : MState := ⟨some ReadyState.closed, 0, false, [], Timers.clearAll, true, true⟩

/-- A manager state at the attempt cap of `optDefault`. -/
def stMax : MState := ⟨some ReadyState.closed, 3, false, [], Timers.clearAll, true, true⟩

/-- A live manager state with attempt counter 1 (mid reconnect cycle). -/
def st1 : MState := ⟨some ReadyState.opened, 1, false, [], ⟨true, true, false⟩, true, true⟩

/-- An open, connected manager state. -/
def stOpen : MState := ⟨some ReadyState.opened, 0, false, [], Timers.clearAll, true, true⟩

/-- A disconnected manager state with no socket at all. -/
def stNoWs : MState := ⟨none, 0, false, [], Timers.clearAll, true, true⟩

/-- A connecting manager state (re-entrancy flag set). -/
def stConn : MState := ⟨some ReadyState.connecting, 0, true, [], Timers.clearAll, true, true⟩

/-- C10 (amended): the flush loop runs for some number k of iterations; it
stops at the first iteration whose connectivity check fails, the k messages
shifted are exactly the original prefix of length k, the transport writes are
exactly the truthy messages of that prefix in original order, and the
remaining queue is the untouched original suffix. A truthy message is thus
removed exactly when written, while a falsy payload can be removed without a
write. -/
theorem C10_flush_stops_and_preserves_order (conn : Nat → Bool) (i : Nat)
    (q : List SocketData) :
    ∃ k, k ≤ q.length ∧
      (flushLoop conn i q).1 = q.drop k ∧
      (flushLoop conn i q).2 = ((q.take k).filter SocketData.truthy).map Act.wsSend ∧
      (∀ m, m < k → conn (i + m) = true) ∧
      (k < q.length → conn (i + k) = false) := by
  induction q generalizing i with
  | nil =>
    exact ⟨0, by simp [flushLoop]⟩
  | cons m rest ih =>
    by_cases h : conn i
    · obtain ⟨k, hk, h1, h2, h3, h4⟩ := ih (i + 1)
      refine ⟨k + 1, by simpa using Nat.succ_le_succ hk, ?_, ?_, ?_, ?_⟩
      · simpa [flushLoop, h] using h1
      · rw [show (m :: rest).take (k + 1) = m :: rest.take k from rfl]
        simp only [flushLoop, h, if_true, List.filter_cons]
        cases hm : m.truthy <;> simp [hm, h2]
      · intro j hj
        cases j with
        | zero => simpa using h
        | succ j' =>
          have hj' : j' < k := Nat.lt_of_succ_lt_succ hj
          have := h3 j' hj'
          have harith : i + 1 + j' = i + (j' + 1) := by omega
          rw [harith] at this
          exact this
      · intro hlt
        have hlt' : k < rest.length := Nat.lt_of_succ_lt_succ hlt
        have := h4 hlt'
        have harith : i + 1 + k = i + (k + 1) := by omega
        rw [harith] at this
        exact this
    · refine ⟨0, Nat.zero_le _, ?_, ?_, ?_, ?_⟩
      · simp [flushLoop, h]
      · simp [flushLoop, h]
      · intro j hj; omega
      · intro _; simpa using h

/-- C10 counterexample: with the connection open throughout, flushing a
queue holding only the empty string empties the queue yet writes nothing to
the transport — the message is removed without ever being written, refuting
the claim that a message is removed only at the moment it is written. -/
theorem C10_counterexample :
    (flushLoop (fun _ => true) 0 [SocketData.str ""]).1 = [] ∧
    wsSendsOf (flushLoop (fun _ => true) 0 [SocketData.str ""]).2 = [] := by
  constructor <;> rfl

/-- C2: when a failure episode schedules the nth reconnect (attempt counter
n − 1, below the cap), the armed delay is exactly
min(base × 1.5^(n−1), 30000) + rand × randomTime × 1000; the jitter lies in
[0, randomTime × 1000); the deterministic component is monotone
non-decreasing in the attempt count; and the total delay dominates the
deterministic component. -/
theorem C2_backoff_delay (o : Options) (rand : ℚ) (s : MState) (n : Nat)
    (hn : s.reconnectCount + 1 = n)
    (hmax : s.reconnectCount < o.reconnectAttempts)
    (hcb : s.callbacksActive = true)
    (hr0 : 0 ≤ rand) (hr1 : rand < 1)
    (hrt : 0 < o.randomTime) (hbase : 0 ≤ o.reconnectInterval) :
    (handleConnectionError o rand s).2 =
      [Act.cbReconnecting (o.reconnectAttempts - n),
        Act.schedReconnect (backoffDelay o n + randomDelay o rand)] ∧
    0 ≤ randomDelay o rand ∧
    randomDelay o rand < o.randomTime * 1000 ∧
    (∀ a b : Nat, a ≤ b → backoffDelay o a ≤ backoffDelay o b) ∧
    backoffDelay o n ≤ backoffDelay o n + randomDelay o rand := by
  refine ⟨?_, ?_, ?_, ?_, ?_⟩
  · simp [handleConnectionError, hmax, emitCb, hcb, hn]
  · exact mul_nonneg (mul_nonneg hr0 hrt.le) (by norm_num)
  · show rand * o.randomTime * 1000 < o.randomTime * 1000
    have h1 : rand * o.randomTime < o.randomTime := by
      simpa using mul_lt_mul_of_pos_right hr1 hrt
    exact mul_lt_mul_of_pos_right h1 (by norm_num)
  · intro a b hab
    unfold backoffDelay
    refine min_le_min ?_ le_rfl
    refine mul_le_mul_of_nonneg_left ?_ hbase
    exact pow_le_pow_right₀ (by norm_num) (Nat.sub_le_sub_right hab 1)
  · exact le_add_of_nonneg_right (mul_nonneg (mul_nonneg hr0 hrt.le) (by norm_num))

/-- C2 witness: the first reconnect of a fresh default-configured manager,
with the monotonicity conjunct instantiated at attempts 1 and 2. -/
theorem C2_backoff_delay_witness :
    (handleConnectionError optDefault 0 st0).2 =
      [Act.cbReconnecting (optDefault.reconnectAttempts - 1),
        Act.schedReconnect (backoffDelay optDefault 1 + randomDelay optDefault 0)] ∧
    0 ≤ randomDelay optDefault 0 ∧
    randomDelay optDefault 0 < optDefault.randomTime * 1000 ∧
    backoffDelay optDefault 1 ≤ backoffDelay optDefault 2 ∧
    backoffDelay optDefault 1 ≤ backoffDelay optDefault 1 + randomDelay optDefault 0 := by
  have h := C2_backoff_delay optDefault 0 st0 1 rfl (by norm_num [optDefault, st0]) rfl
    le_rfl (by norm_num) (by norm_num [optDefault]) (by norm_num [optDefault])
  exact ⟨h.1, h.2.1, h.2.2.1, h.2.2.2.1 1 2 (by norm_num), h.2.2.2.2⟩

/-- C9: whenever the merged configuration has equal heartbeat send interval
and heartbeat timeout, construction widens exactly the timeout, by 3000 ms,
leaving every other field unchanged. -/
theorem C9_constructor_widens_timeout (u : OptionsInput)
    (heq : (mergeOptions u).heartbeatInterval = (mergeOptions u).heartbeatTimeout) :
    constructorOptions u =
      { mergeOptions u with heartbeatTimeout := (mergeOptions u).heartbeatTimeout + 3000 } := by
  simp [constructorOptions, heq]

/-- Caller configuration with heartbeatInterval = heartbeatTimeout = 1000. -/
def u1000 : OptionsInput := ⟨none, none, some 1000, some 1000, none, none⟩

/-- C9 witness: heartbeatInterval = 1000 and heartbeatTimeout = 1000 yield an
effective timeout of 4000 with all other fields at their defaults. -/
theorem C9_constructor_widens_timeout_witness :
    (constructorOptions u1000).heartbeatTimeout = 4000 ∧
    (constructorOptions u1000).heartbeatInterval = 1000 ∧
    (constructorOptions u1000).reconnectAttempts = 3 ∧
    (constructorOptions u1000).reconnectInterval = 5000 ∧
    (constructorOptions u1000).randomTime = 2 ∧
    (constructorOptions u1000).enableMessageBuffer = false := by
  have h := C9_constructor_widens_timeout u1000 rfl
  rw [h]
  norm_num [mergeOptions, u1000]

/-- C7: a failure episode at the attempt cap invokes onReconnectFailed
exactly once, clears the connection reference, and arms the fixed 30 s
cooldown whose body resets the attempt counter to zero, so later
reconnection is not permanently blocked. -/
theorem C7_exhaustion_recovery (o : Options) (rand : ℚ) (s : MState)
    (hmax : ¬ s.reconnectCount < o.reconnectAttempts)
    (hcb : s.callbacksActive = true) :
    (handleConnectionError o rand s).2 =
      [Act.cbReconnectFailed, Act.schedCooldown 30000] ∧
    (handleConnectionError o rand s).1.ws = none ∧
    (cooldownFire (handleConnectionError o rand s).1).reconnectCount = 0 := by
  refine ⟨?_, ?_, ?_⟩ <;> simp [handleConnectionError, hmax, emitCb, hcb, cooldownFire]

/-- C7 witness: exhaustion with the default three attempts used up. -/
theorem C7_exhaustion_recovery_witness :
    (handleConnectionError optDefault 0 stMax).2 =
      [Act.cbReconnectFailed, Act.schedCooldown 30000] ∧
    (handleConnectionError optDefault 0 stMax).1.ws = none ∧
    (cooldownFire (handleConnectionError optDefault 0 stMax).1).reconnectCount = 0 :=
  C7_exhaustion_recovery optDefault 0 stMax (by norm_num [optDefault, stMax]) rfl

end SpWsocket

namespace SpWsocket

/-! Counting helpers over the traces of the reconnect decision and the
connection cleanup. -/

theorem hce_countP_isCbClosed (o : Options) (rand : ℚ) (s : MState) :
    ((handleConnectionError o rand s).2).countP Act.isCbClosed = 0 := by
  unfold handleConnectionError emitCb
  split <;> split <;> rfl

theorem hce_countP_isCbHeartbeatTimeout (o : Options) (rand : ℚ) (s : MState) :
    ((handleConnectionError o rand s).2).countP Act.isCbHeartbeatTimeout = 0 := by
  unfold handleConnectionError emitCb
  split <;> split <;> rfl

theorem hce_countP_isSchedReconnect (o : Options) (rand : ℚ) (s : MState) :
    ((handleConnectionError o rand s).2).countP Act.isSchedReconnect =
      if s.reconnectCount < o.reconnectAttempts then 1 else 0 := by
  unfold handleConnectionError emitCb
  split <;> split <;> rfl

theorem cleanupActs_countP_isCbClosed (rs : ReadyState) :
    (cleanupOldConnActs rs).countP Act.isCbClosed = 0 := by
  unfold cleanupOldConnActs
  split <;> rfl

theorem cleanupActs_countP_isCbHeartbeatTimeout (rs : ReadyState) :
    (cleanupOldConnActs rs).countP Act.isCbHeartbeatTimeout = 0 := by
  unfold cleanupOldConnActs
  split <;> rfl

theorem cleanupActs_countP_isSchedReconnect (rs : ReadyState) :
    (cleanupOldConnActs rs).countP Act.isSchedReconnect = 0 := by
  unfold cleanupOldConnActs
  split <;> rfl

/-- C1 (amended): on a transport close signal the onClosed callback fires
exactly once when the reconnect attempt counter is zero and not at all
otherwise; a heartbeat-check expiry with no intervening inbound message
triggers exactly one onHeartbeatTimeout and exactly one onClosed, and
schedules exactly one reconnect attempt precisely when the counter is below
the configured maximum (none when the attempts are exhausted). -/
theorem C1_failure_episode_callbacks (o : Options) (rand : ℚ) (s : MState)
    (hcb : s.callbacksActive = true) :
    ((s.reconnectCount = 0 →
        (fireClose o rand s).2.countP Act.isCbClosed = 1) ∧
      (s.reconnectCount ≠ 0 →
        (fireClose o rand s).2.countP Act.isCbClosed = 0)) ∧
    ((handleTimeoutAndReconnect o rand s).2.countP Act.isCbHeartbeatTimeout = 1 ∧
      (handleTimeoutAndReconnect o rand s).2.countP Act.isCbClosed = 1 ∧
      (s.reconnectCount < o.reconnectAttempts →
        (handleTimeoutAndReconnect o rand s).2.countP Act.isSchedReconnect = 1) ∧
      (¬ s.reconnectCount < o.reconnectAttempts →
        (handleTimeoutAndReconnect o rand s).2.countP Act.isSchedReconnect = 0)) := by
  refine ⟨⟨?_, ?_⟩, ?_, ?_, ?_, ?_⟩
  · intro h0
    unfold fireClose oncloseHandler
    simp [Timers.clearAll, emitCb, hcb, h0, List.countP_append,
      hce_countP_isCbClosed, Act.isCbClosed]
  · intro h0
    unfold fireClose oncloseHandler
    simp [Timers.clearAll, emitCb, hcb, h0, List.countP_append,
      hce_countP_isCbClosed]
  · unfold handleTimeoutAndReconnect
    cases hws : s.ws <;>
      simp [cleanupConnection, hws, emitCb, hcb, List.countP_append, List.countP_cons,
        hce_countP_isCbHeartbeatTimeout, cleanupActs_countP_isCbHeartbeatTimeout,
        Act.isCbHeartbeatTimeout, Act.isCbClosed]
  · unfold handleTimeoutAndReconnect
    cases hws : s.ws <;>
      simp [cleanupConnection, hws, emitCb, hcb, List.countP_append, List.countP_cons,
        hce_countP_isCbClosed, cleanupActs_countP_isCbClosed,
        Act.isCbHeartbeatTimeout, Act.isCbClosed]
  · intro hlt
    unfold handleTimeoutAndReconnect
    cases hws : s.ws <;>
      simp [cleanupConnection, hws, emitCb, hcb, List.countP_append, List.countP_cons,
        hce_countP_isSchedReconnect, cleanupActs_countP_isSchedReconnect, hlt,
        Act.isCbHeartbeatTimeout, Act.isCbClosed, Act.isSchedReconnect]
  · intro hlt
    unfold handleTimeoutAndReconnect
    cases hws : s.ws <;>
      simp [cleanupConnection, hws, emitCb, hcb, List.countP_append, List.countP_cons,
        hce_countP_isSchedReconnect, cleanupActs_countP_isSchedReconnect, hlt,
        Act.isCbHeartbeatTimeout, Act.isCbClosed, Act.isSchedReconnect]

end SpWsocket

namespace SpWsocket

/-- C1 counterexample: a transport close of a live, non-destroyed manager
whose attempt counter is 1 (a failure episode during a reconnect cycle) is
handled — a reconnect is scheduled — yet onClosed is invoked zero times, not
exactly once as claimed. -/
theorem C1_counterexample :
    (fireClose optDefault 0 st1).2.countP Act.isCbClosed = 0 ∧
    (fireClose optDefault 0 st1).2.countP Act.isSchedReconnect = 1 := by
  constructor <;> rfl

/-- C1 witness: the amended statement evaluated on a fresh manager with
counter 0 and the default configuration, every condition discharged. -/
theorem C1_failure_episode_callbacks_witness :
    (fireClose optDefault 0 st0).2.countP Act.isCbClosed = 1 ∧
    (handleTimeoutAndReconnect optDefault 0 st0).2.countP Act.isCbHeartbeatTimeout = 1 ∧
    (handleTimeoutAndReconnect optDefault 0 st0).2.countP Act.isCbClosed = 1 ∧
    (handleTimeoutAndReconnect optDefault 0 st0).2.countP Act.isSchedReconnect = 1 :=
  ⟨(C1_failure_episode_callbacks optDefault 0 st0 rfl).1.1 rfl,
    (C1_failure_episode_callbacks optDefault 0 st0 rfl).2.1,
    (C1_failure_episode_callbacks optDefault 0 st0 rfl).2.2.1,
    (C1_failure_episode_callbacks optDefault 0 st0 rfl).2.2.2.1 (by decide)⟩

/-- C3 (amended): on a successful open the attempt counter is reset to 0 and
the connecting flag cleared before any observable effect, the reconnect timer
handle is left exactly as connect() left it (already cancelled, so it stays
cancelled), and the observable side effects are, in order: the buffered
truthy payloads written FIFO when buffering is enabled, the heartbeat send
and check timers (re)armed, and onConnected invoked — flushing thus precedes
the heartbeat (re)start, not the other way around. -/
theorem C3_open_transition (o : Options) (r1 r2 : ℚ) (s : MState) (rs : ReadyState)
    (hws : s.ws = some rs) (hcb : s.callbacksActive = true)
    (hhb : s.hasGetHeartbeat = true) :
    (fireOpen o r1 r2 s).1.reconnectCount = 0 ∧
    (fireOpen o r1 r2 s).1.isConnecting = false ∧
    (fireOpen o r1 r2 s).1.timers.reconnect = s.timers.reconnect ∧
    (fireOpen o r1 r2 s).1.messageQueue =
      (if o.enableMessageBuffer then [] else s.messageQueue) ∧
    (fireOpen o r1 r2 s).2 =
      (if o.enableMessageBuffer then
          (s.messageQueue.filter SocketData.truthy).map Act.wsSend
        else []) ++
      [Act.schedHeartbeatSend (o.heartbeatInterval + r1 * o.randomTime),
        Act.schedHeartbeatCheck (o.heartbeatTimeout + r2 * o.randomTime),
        Act.cbConnected] := by
  unfold fireOpen onopenHandler
  by_cases hbuf : o.enableMessageBuffer <;>
    simp [hbuf, hws, flushMessageQueue, isConnectedB, flushLoop_conn_true,
      startHeartbeat, resetHeartbeat, emitCb, hcb, hhb]

/-- A state with buffering-relevant content: one truthy queued message. -/
def st3 : MState :=
  ⟨some ReadyState.connecting, 1, true, [SocketData.str "m"], Timers.clearAll, true, true⟩

/-- C3 counterexample: with buffering enabled, a heartbeat producer present
and one queued message, the action order the code produces on open differs
from the order the claim states (heartbeat timers restarted before the
flush): the code flushes first. -/
theorem C3_counterexample :
    (fireOpen optBuffer 0 0 st3).2 ≠ onopenSpecOrderActs optBuffer 0 0 st3 := by
  decide

/-- C3 witness: the amended open transition evaluated on `st3` under the
buffering configuration. -/
theorem C3_open_transition_witness :
    (fireOpen optBuffer 0 0 st3).1.reconnectCount = 0 ∧
    (fireOpen optBuffer 0 0 st3).1.isConnecting = false ∧
    (fireOpen optBuffer 0 0 st3).1.timers.reconnect = st3.timers.reconnect ∧
    (fireOpen optBuffer 0 0 st3).1.messageQueue =
      (if optBuffer.enableMessageBuffer then [] else st3.messageQueue) ∧
    (fireOpen optBuffer 0 0 st3).2 =
      (if optBuffer.enableMessageBuffer then
          (st3.messageQueue.filter SocketData.truthy).map Act.wsSend
        else []) ++
      [Act.schedHeartbeatSend (optBuffer.heartbeatInterval + 0 * optBuffer.randomTime),
        Act.schedHeartbeatCheck (optBuffer.heartbeatTimeout + 0 * optBuffer.randomTime),
        Act.cbConnected] :=
  C3_open_transition optBuffer 0 0 st3 ReadyState.connecting rfl rfl rfl

/-- C4: destroy is terminal and idempotent-safe — two successive destroy
calls invoke onClosed exactly once in total and return normally, the second
call emits no callback at all, neither call schedules a reconnect or creates
a socket, and the final state has no connection, no timers and a released
callback set. -/
theorem C4_destroy_idempotent (s : MState) (hcb : s.callbacksActive = true) :
    ((destroy s).2 ++ (destroy (destroy s).1).2).countP Act.isCbClosed = 1 ∧
    ((destroy (destroy s).1).2).countP Act.isCb = 0 ∧
    ((destroy s).2 ++ (destroy (destroy s).1).2).countP Act.isSchedReconnect = 0 ∧
    ((destroy s).2 ++ (destroy (destroy s).1).2).countP Act.isNewWebSocket = 0 ∧
    (destroy (destroy s).1).1.ws = none ∧
    (destroy (destroy s).1).1.timers = Timers.clearAll ∧
    (destroy (destroy s).1).1.callbacksActive = false := by
  unfold destroy cleanupConnection
  cases hws : s.ws with
  | none =>
    refine ⟨?_, ?_, ?_, ?_, ?_, ?_, ?_⟩ <;>
      simp [hws, emitCb, hcb, Act.isCbClosed, Act.isCb, Act.isSchedReconnect,
        Act.isNewWebSocket]
  | some rs =>
    refine ⟨?_, ?_, ?_, ?_, ?_, ?_, ?_⟩ <;>
      simp [hws, emitCb, hcb, cleanupOldConnActs, List.countP_append, List.countP_cons,
        Act.isCbClosed, Act.isCb, Act.isSchedReconnect, Act.isNewWebSocket]
    all_goals
      intro a h1 h2 ha
      subst ha
      rfl

/-- C4 witness: double destroy of a live, open manager. -/
theorem C4_destroy_idempotent_witness :
    ((destroy stOpen).2 ++ (destroy (destroy stOpen).1).2).countP Act.isCbClosed = 1 ∧
    ((destroy (destroy stOpen).1).2).countP Act.isCb = 0 ∧
    ((destroy stOpen).2 ++ (destroy (destroy stOpen).1).2).countP Act.isSchedReconnect = 0 ∧
    ((destroy stOpen).2 ++ (destroy (destroy stOpen).1).2).countP Act.isNewWebSocket = 0 ∧
    (destroy (destroy stOpen).1).1.ws = none ∧
    (destroy (destroy stOpen).1).1.timers = Timers.clearAll ∧
    (destroy (destroy stOpen).1).1.callbacksActive = false :=
  C4_destroy_idempotent stOpen rfl

end SpWsocket

namespace SpWsocket

/-- C10 witness: the flush characterization evaluated at a concrete oracle
and a concrete one-message queue. -/
theorem C10_flush_stops_and_preserves_order_witness :
    ∃ k, k ≤ [SocketData.str "a"].length ∧
      (flushLoop (fun _ => true) 0 [SocketData.str "a"]).1 = [SocketData.str "a"].drop k ∧
      (flushLoop (fun _ => true) 0 [SocketData.str "a"]).2 =
        (([SocketData.str "a"].take k).filter SocketData.truthy).map Act.wsSend ∧
      (∀ m, m < k → (fun _ => true : Nat → Bool) (0 + m) = true) ∧
      (k < [SocketData.str "a"].length → (fun _ => true : Nat → Bool) (0 + k) = false) :=
  C10_flush_stops_and_preserves_order (fun _ => true) 0 [SocketData.str "a"]

theorem wsSendsOf_filter_map (l : List SocketData) :
    List.filterMap ((fun a =>
        match a with
        | Act.wsSend d => some d
        | _ => none) ∘ Act.wsSend) l = l := by
  induction l with
  | nil => rfl
  | cons a l ih => simpa [List.filterMap_cons] using ih

/-- C5 (amended): every send while not open returns failure and invokes
onSendError exactly once with the last known status code (−1 with no
connection); with buffering enabled the payload is appended to the queue,
and on the next successful open the queue is drained with exactly its truthy
payloads written FIFO — a falsy (empty-string) payload is dropped unwritten. -/
theorem C5_send_while_disconnected (o : Options) (s : MState) (d : SocketData)
    (w : Bool) (hnc : isConnectedB s = false) (hcb : s.callbacksActive = true) :
    send o s d w =
      .ok ({ s with messageQueue :=
              if o.enableMessageBuffer then s.messageQueue ++ [d] else s.messageQueue },
            false, [Act.cbSendError (wsStatusCode s)]) ∧
    (s.ws = none → wsStatusCode s = -1) ∧
    (o.enableMessageBuffer = true → ∀ r1 r2 rs,
      wsSendsOf (fireOpen o r1 r2
          { s with messageQueue := s.messageQueue ++ [d], ws := some rs }).2 =
        (s.messageQueue ++ [d]).filter SocketData.truthy ∧
      (fireOpen o r1 r2
          { s with messageQueue := s.messageQueue ++ [d], ws := some rs }).1.messageQueue
        = []) := by
  refine ⟨?_, ?_, ?_⟩
  · unfold send
    by_cases hbuf : o.enableMessageBuffer <;>
      simp [hnc, hbuf, emitCb, hcb, wsStatusCode]
    conv_rhs => rw [← hcb]
  · intro hws
    simp [wsStatusCode, hws]
  · intro hbuf r1 r2 rs
    unfold fireOpen onopenHandler
    constructor
    · by_cases hhb : s.hasGetHeartbeat <;>
        simp [hbuf, flushMessageQueue, isConnectedB, flushLoop_conn_true,
          startHeartbeat, resetHeartbeat, emitCb, hcb, hhb, wsSendsOf_append,
          wsSendsOf_map_wsSend, wsSendsOf, List.filterMap_cons,
          wsSendsOf_filter_map]
    · by_cases hhb : s.hasGetHeartbeat <;>
        simp [hbuf, flushMessageQueue, isConnectedB, flushLoop_conn_true,
          startHeartbeat, resetHeartbeat, emitCb, hcb, hhb]

/-- C5 counterexample: with buffering enabled, sending the empty string while
disconnected returns failure, reports onSendError(−1) and appends the payload
to the queue, but on the next successful open that payload is never written
to the transport, contrary to the claimed FIFO flush of the queued payloads. -/
theorem C5_counterexample :
    send optBuffer stNoWs (SocketData.str "") false =
      .ok ({ stNoWs with messageQueue := [SocketData.str ""] }, false,
        [Act.cbSendError (-1)]) ∧
    wsSendsOf (fireOpen optBuffer 0 0
        { stNoWs with
            messageQueue := [SocketData.str ""],
            ws := some ReadyState.connecting }).2 = [] := by
  constructor <;> rfl

/-- C5 witness: the amended statement evaluated for a nonempty payload on a
manager with no connection, conditions discharged at concrete inputs. -/
theorem C5_send_while_disconnected_witness :
    send optBuffer stNoWs (SocketData.str "hello") false =
      .ok ({ stNoWs with messageQueue :=
              if optBuffer.enableMessageBuffer then
                stNoWs.messageQueue ++ [SocketData.str "hello"]
              else stNoWs.messageQueue },
            false, [Act.cbSendError (wsStatusCode stNoWs)]) ∧
    wsStatusCode stNoWs = -1 ∧
    wsSendsOf (fireOpen optBuffer 0 0
        { stNoWs with
            messageQueue := stNoWs.messageQueue ++ [SocketData.str "hello"],
            ws := some ReadyState.connecting }).2 =
      (stNoWs.messageQueue ++ [SocketData.str "hello"]).filter SocketData.truthy ∧
    (fireOpen optBuffer 0 0
        { stNoWs with
            messageQueue := stNoWs.messageQueue ++ [SocketData.str "hello"],
            ws := some ReadyState.connecting }).1.messageQueue = [] :=
  ⟨(C5_send_while_disconnected optBuffer stNoWs (SocketData.str "hello") false rfl rfl).1,
    (C5_send_while_disconnected optBuffer stNoWs (SocketData.str "hello") false rfl rfl).2.1 rfl,
    ((C5_send_while_disconnected optBuffer stNoWs (SocketData.str "hello") false rfl rfl).2.2
      rfl 0 0 ReadyState.connecting).1,
    ((C5_send_while_disconnected optBuffer stNoWs (SocketData.str "hello") false rfl rfl).2.2
      rfl 0 0 ReadyState.connecting).2⟩

/-- C6: the program evaluated at the failing input — the connection is open
and the underlying transport write throws — lets the exception escape the
public send boundary (Except.error) instead of reporting it through
onSendError; the no-throw guarantee holds only on the not-open path. -/
theorem C6_send_propagates_write_failure :
    send optDefault stOpen (SocketData.str "x") true = .error () := rfl

/-- C8: a connect request observed while the connecting flag is set is
dropped silently (state unchanged, no action, no second socket); otherwise a
previous connection has its handlers detached first and is closed unless
already closed or closing, before the single new socket is created, so the
manager holds at most one connection. -/
theorem C8_connect_exclusivity (o : Options) (s : MState) (rand : ℚ) :
    (s.isConnecting = true → connect o s false rand = (s, [])) ∧
    (s.isConnecting = false → ∀ rs, s.ws = some rs →
      connect o s false rand =
        ({ s with
            isConnecting := true,
            timers := Timers.clearAll,
            ws := some ReadyState.connecting },
          Act.detachHandlers ::
            ((if rs != ReadyState.closed && rs != ReadyState.closing
                then [Act.wsClose] else []) ++ [Act.newWebSocket]))) := by
  constructor
  · intro h
    simp [connect, h]
  · intro h rs hws
    simp [connect, h, hws, cleanupOldConnActs]

/-- C8 witness: both branches at concrete states — a connect while already
connecting is a no-op, and a connect over an open previous socket detaches
it, closes it and creates exactly one new socket. -/
theorem C8_connect_exclusivity_witness :
    connect optDefault stConn false 0 = (stConn, []) ∧
    connect optDefault stOpen false 0 =
      ({ stOpen with
          isConnecting := true,
          timers := Timers.clearAll,
          ws := some ReadyState.connecting },
        Act.detachHandlers ::
          ((if ReadyState.opened != ReadyState.closed &&
                ReadyState.opened != ReadyState.closing
              then [Act.wsClose] else []) ++ [Act.newWebSocket])) :=
  ⟨(C8_connect_exclusivity optDefault stConn 0).1 rfl,
    (C8_connect_exclusivity optDefault stOpen 0).2 rfl ReadyState.opened rfl⟩

end SpWsocket
